import Mathlib

/-!
Verification development for the next-ejabberd client library.

The definitions below are a shallow embedding of the TypeScript sources:
  - src/core/connection.ts        (ConnectionManager)
  - src/client.ts                 (EjabberdClient stanza dispatch)
  - src/features/mam/handlers.ts  (MAMHandler, the archive aggregator)
  - src/features/messaging/status.ts (MessageStatusManager)
  - src/features/messaging/messages.ts (MessageManager parsers)
  - src/constants/namespaces.ts

XML stanzas (ltx Element values) are modelled as a tree of named nodes with
an attribute list and ordered children; text nodes are a separate
constructor.  `getChild name` matches a child of that name in any
namespace, exactly as ltx does when no xmlns argument is given;
`getChildNS name ns` requires the child to resolve to namespace `ns`,
where resolution reads the child xmlns attribute and otherwise inherits
the xmlns attribute of the parent node (ltx walks the whole ancestor
chain; the stanzas handled here carry explicit xmlns attributes on every
namespaced child, so one level of inheritance is faithful).
-/

namespace NextEjabberd

/-- Model of an ltx Element tree: a text node or a named node with an
attribute association list and ordered children. -/
inductive Element where
  | text (s : String)
  | elem (name : String) (attrs : List (String × String)) (children : List Element)

/-- Name of a node; text nodes have no name (ltx only calls getName on
element children, which we never do on text nodes either). -/
def Element.name : Element → String
  | .text _ => ""
  | .elem n _ _ => n

/-- Attribute lookup, modelling `e.attrs[k]` (undefined becomes none). -/
def Element.attr : Element → String → Option String
  | .text _, _ => none
  | .elem _ attrs _, k => attrs.lookup k

/-- True when the node is an element node with the given name. -/
def Element.isElemNamed (n : String) : Element → Bool
  | .text _ => false
  | .elem m _ _ => m == n

/-- Model of ltx `getChild(name)`: the first child element of that name,
matching in any namespace. -/
def Element.getChild (e : Element) (n : String) : Option Element :=
  match e with
  | .text _ => none
  | .elem _ _ cs => cs.find? (fun c => c.isElemNamed n)

/-- Model of ltx `getChild(name, xmlns)`: the first child element of that
name whose resolved namespace (its own xmlns attribute, else the xmlns
attribute inherited from the parent) equals `ns`. -/
def Element.getChildNS (e : Element) (n ns : String) : Option Element :=
  match e with
  | .text _ => none
  | .elem _ attrs cs =>
      cs.find? (fun c =>
        c.isElemNamed n && ((c.attr "xmlns" <|> attrs.lookup "xmlns") == some ns))

/-- Model of ltx `getText()`: concatenation of the direct text children. -/
def Element.getText : Element → String
  | .text s => s
  | .elem _ _ cs =>
      cs.foldl (fun acc c => match c with | .text s => acc ++ s | _ => acc) ""

/-- Model of ltx `getChildText(name)`: text of the first child of that
name, or none (null) when there is no such child. -/
def Element.getChildText (e : Element) (n : String) : Option String :=
  (e.getChild n).map Element.getText

/-- Model of `e.attrs[k] = v`: replaces or adds the attribute `k`. -/
def Element.setAttr : Element → String → String → Element
  | .text s, _, _ => .text s
  | .elem n attrs cs, k, v => .elem n ((k, v) :: attrs.filter (fun p => p.1 ≠ k)) cs

/-! Namespace constants from src/constants/namespaces.ts, plus the two
string literals that appear inline in the MAM handler. -/

def MAM_NAMESPACE : String := "urn:xmpp:mam:2"
def RSM_NAMESPACE : String := "http://jabber.org/protocol/rsm"
def RECEIPT_NAMESPACE : String := "urn:xmpp:receipts"
def STATUS_NAMESPACE : String := "urn:xmpp:message-status:0"
def HTTP_UPLOAD_NAMESPACE : String := "urn:xmpp:http:upload:0"
def FORWARD_NAMESPACE : String := "urn:xmpp:forward:0"
def DELAY_NAMESPACE : String := "urn:xmpp:delay"

/-- Parsed domain message (types/messages.ts XMPPMessage as produced by
the parsers).  Attribute-sourced fields are optional because stanza
attributes can be absent.  `stamp` is the delay stamp attribute when a
delay child is present; none models the receipt-time clock used
otherwise (Date construction itself is outside the embedding).  `mtype`
is the tag of the union: "chat" or "file". -/
structure XMPPMessage where
  id : Option String
  stanza_id : Option String
  mfrom : Option String
  mto : Option String
  stamp : Option String
  mtype : String
  body : String
  fileUrl : Option String := none
  fileName : Option String := none
  fileSize : Option String := none
  mimeType : Option String := none
deriving DecidableEq, Repr

/-- MAMHandler.parseForwardedMessage from src/features/mam/handlers.ts. -/
def parseForwardedMessage (stanza : Element) : Option XMPPMessage :=
  match stanza.getChildNS "forwarded" FORWARD_NAMESPACE with
  | none => none
  | some forwarded =>
    match forwarded.getChild "message" with
    | none => none
    | some message =>
      let delay := forwarded.getChildNS "delay" DELAY_NAMESPACE
      let stamp := delay.bind (fun d => d.attr "stamp")
      let stanza_id := (message.getChild "stanza-id").bind (fun c => c.attr "id")
      let body := (message.getChildText "body").getD ""
      let base : XMPPMessage :=
        { id := message.attr "id", stanza_id := stanza_id,
          mfrom := message.attr "from", mto := message.attr "to",
          stamp := stamp, mtype := "chat", body := body }
      match (message.getChildNS "x" HTTP_UPLOAD_NAMESPACE).bind
              (fun x => x.getChild "file") with
      | some fileElement =>
          some { base with
                 mtype := "file",
                 fileUrl := fileElement.attr "url",
                 fileName := fileElement.attr "name",
                 fileSize := fileElement.attr "size",
                 mimeType := fileElement.attr "type" }
      | none => some base

/-- RSM paging block of a MAM terminal result.  `count` keeps the raw
attribute text; handlers.ts applies parseInt to it, which we leave
abstract since no property here depends on the numeric value. -/
structure RSMInfo where
  first : Option String
  last : Option String
  count : Option String
deriving DecidableEq, Repr

/-- Completed archive result (types/mam.ts MAMResult). -/
structure MAMResult where
  queryId : Option String
  complete : Bool
  messages : List XMPPMessage
  rsm : Option RSMInfo := none
deriving DecidableEq, Repr

/-- The aggregator table `MAMHandler.messageCollections`, a Map from
queryId to the ordered partial message list. -/
abbrev MessageMap := List (String × List XMPPMessage)

/-- Map lookup: `messageCollections.get(q)`. -/
def mapGet : MessageMap → String → Option (List XMPPMessage)
  | [], _ => none
  | (k, v) :: rest, q => if k = q then some v else mapGet rest q

/-- The item-frame update of the table: create the entry if absent, then
push the message at the end (handlers.ts lines that guard with `has`
before pushing). -/
def mapPush (mc : MessageMap) (q : String) (m : XMPPMessage) : MessageMap :=
  match mc with
  | [] => [(q, [m])]
  | (k, v) :: rest => if k = q then (k, v ++ [m]) :: rest else (k, v) :: mapPush rest q m

/-- Map deletion: `messageCollections.delete(q)`. -/
def mapDelete : MessageMap → String → MessageMap
  | [], _ => []
  | (k, v) :: rest, q =>
      if k = q then mapDelete rest q else (k, v) :: mapDelete rest q

/-- Model of `x || undefined` applied to a nullable string: empty or
absent strings collapse to none. -/
def strOrNone : Option String → Option String
  | none => none
  | some s => if s = "" then none else some s

/-- MAMHandler.parseResult: processes one inbound stanza against the
pending-collections table and returns the updated table together with
the completed result, when the stanza is a terminal frame.  Item frames
are keyed by the queryid attribute of the mam result child; the terminal
frame is looked up by the top-level id attribute of the fin stanza.  The
`if q = ""` branch mirrors the JS falsy test `!queryId`, which drops
items whose queryid is absent or empty. -/
def parseResult (mc : MessageMap) (stanza : Element) :
    MessageMap × Option MAMResult :=
  match stanza.getChildNS "result" MAM_NAMESPACE with
  | some resultChild =>
      let queryId := resultChild.attr "queryid"
      let message := parseForwardedMessage resultChild
      match message, queryId with
      | some m, some q => if q = "" then (mc, none) else (mapPush mc q m, none)
      | _, _ => (mc, none)
  | none =>
    match stanza.getChildNS "fin" MAM_NAMESPACE with
    | none => (mc, none)
    | some fin =>
        let queryId := stanza.attr "id"
        let messages := (queryId.bind (mapGet mc)).getD []
        let mc2 := match queryId with
          | some q => mapDelete mc q
          | none => mc
        let rsm := (fin.getChildNS "set" RSM_NAMESPACE).map (fun set =>
          { first := strOrNone (set.getChildText "first"),
            last := strOrNone (set.getChildText "last"),
            count := strOrNone (set.getChildText "count") : RSMInfo })
        (mc2, some { queryId := queryId,
                     complete := fin.attr "complete" == some "true",
                     messages := messages,
                     rsm := rsm })

/-- Feeding a list of stanzas to parseResult in transport order,
collecting the results it emits (the dispatcher emits one archive event
per some result). -/
def processAll (mc : MessageMap) : List Element → MessageMap × List MAMResult
  | [] => (mc, [])
  | st :: rest =>
      let step := parseResult mc st
      let tail := processAll step.1 rest
      (tail.1, step.2.toList ++ tail.2)

/-! Connection lifecycle (src/core/connection.ts). -/

/-- ConnectionState from types/connection.ts. -/
inductive ConnectionState where
  | online
  | offline
  | connecting
  | connected
  | authenticating
  | authenticated
  | disconnecting
  | disconnected
  | error
deriving DecidableEq, Repr

/-- ConnectionError (types/connection.ts): message plus optional code. -/
structure ConnectionError where
  message : String
  code : Option String := none
deriving DecidableEq, Repr

def MAX_RECONNECT_ATTEMPTS : Nat := 5
def MAX_BACKOFF_TIME : Nat := 30000

/-- The mutable fields of ConnectionManager that the lifecycle touches.
The transport handle is identified by a number so that creation of a
fresh client is observable; connectionTimeout records whether the
connect-timeout timer is armed.  The connectionPromise field is not
modelled: nothing here reads it. -/
structure CMState where
  xmpp : Option Nat
  status : ConnectionState
  connectionTimeout : Bool
  reconnectAttempts : Nat
deriving DecidableEq, Repr

/-- setStatus: store the new status (the accompanying status event is
emitted to observers; event delivery is outside this embedding). -/
def setStatus (s : CMState) (st : ConnectionState) : CMState :=
  { s with status := st }

/-- clearConnectionTimeout from connection.ts. -/
def clearConnectionTimeout (s : CMState) : CMState :=
  { s with connectionTimeout := false }

/-- The synchronous prefix of connect(): reject while connecting or
online without touching any field, otherwise transition to connecting,
arm the connect timeout and create a fresh transport handle whose start
is initiated (establishConnection); the await of start and
waitForConnection resolve later through transport events.  Returns the
post-call state and the raised ConnectionError, if any. -/
def connect (s : CMState) (handle : Nat) : CMState × Option ConnectionError :=
  if s.status = .connecting then
    (s, some { message := "Connection already in progress" })
  else if s.status = .online then
    (s, some { message := "Already connected" })
  else
    ({ s with status := .connecting, connectionTimeout := true, xmpp := some handle },
     none)

/-- cleanup from connection.ts: drop the transport handle and its
listeners, reset the attempt counter, clear the timeout, and set the
status to disconnected. -/
def cleanup (s : CMState) : CMState :=
  { s with xmpp := none, reconnectAttempts := 0, connectionTimeout := false,
           status := .disconnected }

/-- disconnect() along its successful path: a no-op without a transport
handle, otherwise stop the transport and run cleanup.  (The catch branch
for a failing stop() is not exercised by any claim.) -/
def disconnect (s : CMState) : CMState :=
  if s.xmpp = none then s else cleanup s

/-- shouldAttemptReconnect from connection.ts; the config is readonly
and never null, so that conjunct is constantly true. -/
def shouldAttemptReconnect (s : CMState) : Bool :=
  s.reconnectAttempts < MAX_RECONNECT_ATTEMPTS && !(s.status = .disconnected)

/-- The backoff computation at the top of reconnect(), reading the
current value of the attempt counter. -/
def backoffTime (attempts : Nat) : Nat :=
  min (1000 * 2 ^ attempts) MAX_BACKOFF_TIME

/-- handleConnectionError: clear the timeout, set status to error (and
emit), then, when a reconnect is warranted, increment the attempt
counter FIRST and only then enter reconnect(), which computes the
backoff from the already incremented counter and starts the wait.  The
returned option is the backoff delay of the pending reconnect, none when
no reconnect was scheduled. -/
def handleConnectionError (s : CMState) : CMState × Option Nat :=
  let s1 := setStatus (clearConnectionTimeout s) .error
  if shouldAttemptReconnect s1 then
    let s2 := { s1 with reconnectAttempts := s1.reconnectAttempts + 1 }
    (s2, some (backoffTime s2.reconnectAttempts))
  else
    (s1, none)

/-- The state of a manager inside its first connect() attempt: transport
handle 0 created and starting, status connecting, timeout armed, no
failures yet. -/
def initialConnectAttempt : CMState :=
  { xmpp := some 0, status := .connecting, connectionTimeout := true,
    reconnectAttempts := 0 }

/-- State after n consecutive connect failures, each failure being
handled by handleConnectionError and, when a reconnect was scheduled,
followed by the backoff elapsing and reconnect() invoking connect()
(which succeeds in starting a fresh transport whose own failure is the
next round). -/
def afterFailures : Nat → CMState
  | 0 => initialConnectAttempt
  | n + 1 =>
      let step := handleConnectionError (afterFailures n)
      match step.2 with
      | some _ => (connect step.1 (n + 1)).1
      | none => step.1

/-- The backoff delay scheduled when the n-th consecutive failure
(n starting at 1) is handled; none when that failure schedules no
automatic reconnect. -/
def delayAtFailure (n : Nat) : Option Nat :=
  (handleConnectionError (afterFailures (n - 1))).2

/-! Correlated queries (ConnectionManager.sendIQ). -/

/-- Behaviour of the transport for one iqCaller.request call: a response
stanza, a rejection carrying a protocol condition, or any other send
failure. -/
inductive IQSendOutcome where
  | ok (response : Element)
  | protoError (condition : String) (message : String)
  | sendError (message : String)

/-- Errors observable from sendIQ: the not-connected fast failure, a
structured protocol error rethrown as-is (it carries a condition), or
any other failure wrapped with the generic message. -/
inductive IQError where
  | notConnected (message : String)
  | protocol (condition : String) (message : String)
  | generic (message : String)

/-- One sendIQ call: the frame actually handed to the transport (none if
the call failed fast before sending) and the outcome for the caller. -/
structure SendIQRun where
  sent : Option Element
  result : Except IQError Element

/-- ConnectionManager.sendIQ: fail fast when there is no transport
handle or the status is not online; attach a fresh correlation id when
the id attribute is absent (or empty: the JS test is falsy); send; a
rejection carrying a condition is rethrown unchanged, any other
rejection is wrapped. -/
def sendIQ (s : CMState) (iq : Element) (freshId : String)
    (outcome : IQSendOutcome) : SendIQRun :=
  if s.xmpp = none ∨ ¬ s.status = .online then
    { sent := none, result := .error (.notConnected "Not connected to server") }
  else
    let iq2 := match iq.attr "id" with
      | none => iq.setAttr "id" freshId
      | some v => if v = "" then iq.setAttr "id" freshId else iq
    match outcome with
    | .ok response => { sent := some iq2, result := .ok response }
    | .protoError c m => { sent := some iq2, result := .error (.protocol c m) }
    | .sendError m =>
        { sent := some iq2,
          result := .error (.generic ("Failed to send IQ: " ++ m)) }

/-! Message status round trip (src/features/messaging/status.ts). -/

/-- MessageStatusErrorType from types/message_status.ts. -/
inductive MessageStatusErrorType where
  | not_found
  | unauthorized
  | server_error
  | invalid_id
  | invalid_jid
deriving DecidableEq, Repr

/-- The error surfaced by MessageStatusManager.handleError: an Error
whose name field carries the status error kind. -/
structure StatusError where
  name : MessageStatusErrorType
  message : String
deriving DecidableEq, Repr

/-- Model of String.prototype.includes for a fixed non-empty pattern. -/
def strContains (s pat : String) : Bool :=
  (s.splitOn pat).length != 1

/-- MessageStatusManager.handleError: map a caught error to a status
error.  The condition switch applies only when the error carries one;
msg models `error.message || unknown`. -/
def handleError (e : IQError) : StatusError :=
  match e with
  | .protocol condition m =>
      let msg := if m = "" then "Unknown error" else m
      if condition = "item-not-found" then
        { name := .not_found, message := "Message status not found" }
      else if condition = "forbidden" then
        { name := .unauthorized, message := "Not authorized to access message status" }
      else if condition = "bad-request" then
        if strContains msg "jid" then
          { name := .invalid_jid, message := "Invalid JID format" }
        else
          { name := .invalid_id, message := "Invalid message ID" }
      else
        { name := .server_error, message := msg }
  | .notConnected m =>
      { name := .server_error, message := if m = "" then "Unknown error" else m }
  | .generic m =>
      { name := .server_error, message := if m = "" then "Unknown error" else m }

/-- The fields of an XMPPMessage that the status round trip reads; the
TS type declares them as required strings. -/
structure MessageRef where
  id : String
  mfrom : String
  mto : String
deriving DecidableEq, Repr

/-- The mark-read set-IQ built by markAsRead. -/
def markReadIQ (message : MessageRef) : Element :=
  .elem "iq" [("type", "set")]
    [.elem "mark-read"
       [("xmlns", STATUS_NAMESPACE), ("id", message.id),
        ("from", message.mfrom), ("to", message.mto)] []]

/-- The displayed receipt built by sendReadReceipt, addressed back to
the original sender (to := message.from). -/
def sendReadReceiptStanza (message : MessageRef) : Element :=
  .elem "message"
    [("id", message.id), ("to", message.mfrom), ("from", message.mto),
     ("type", "chat")]
    [.elem "displayed" [("xmlns", RECEIPT_NAMESPACE), ("id", message.id)] []]

/-- Observable effects of one markAsRead call: the IQ handed to the
transport (after correlation-id attachment), the receipt stanzas sent,
and the outcome for the caller. -/
structure MarkAsReadRun where
  sentIQ : Option Element
  sentReceipts : List Element
  result : Except StatusError Unit

/-- MessageStatusManager.markAsRead: send the mark-read set-IQ through
sendIQ; only on its success send the displayed receipt (sendStanza is
modelled as succeeding, the state being online at that point); any error
of the try block is mapped through handleError and rethrown. -/
def markAsRead (s : CMState) (message : MessageRef) (freshId : String)
    (outcome : IQSendOutcome) : MarkAsReadRun :=
  let run := sendIQ s (markReadIQ message) freshId outcome
  match run.result with
  | .ok _ =>
      { sentIQ := run.sent,
        sentReceipts := [sendReadReceiptStanza message],
        result := .ok () }
  | .error e =>
      { sentIQ := run.sent, sentReceipts := [], result := .error (handleError e) }

/-- MessageReadStatus from types/message_status.ts.  The timestamp keeps
the raw attribute text (status.ts applies parseInt to it); absent or
empty attributes give none, mirroring the JS falsy test. -/
structure MessageReadStatus where
  delivered : Bool
  read : Bool
  timestamp : Option String := none
deriving DecidableEq, Repr

/-- The get-status IQ built by getStatus. -/
def getStatusIQ (messageId jid : String) : Element :=
  .elem "iq" [("type", "get")]
    [.elem "get-status"
       [("xmlns", STATUS_NAMESPACE), ("id", messageId), ("jid", jid)] []]

/-- MessageStatusManager.getStatus: run the correlated query; on a
response, read the status child (throwing the invalid-format error when
it is missing, an error without condition); in the catch, a rejection
whose condition is item-not-found resolves to delivered=false,
read=false, every other error goes through handleError. -/
def getStatus (s : CMState) (messageId jid : String) (freshId : String)
    (outcome : IQSendOutcome) : Except StatusError MessageReadStatus :=
  let run := sendIQ s (getStatusIQ messageId jid) freshId outcome
  let attempt : Except IQError MessageReadStatus :=
    match run.result with
    | .ok result =>
        match result.getChild "status" with
        | some st =>
            .ok { delivered := st.attr "delivered" == some "true",
                  read := st.attr "read" == some "true",
                  timestamp := strOrNone (st.attr "timestamp") }
        | none => .error (.generic "Invalid response format")
    | .error e => .error e
  match attempt with
  | .ok v => .ok v
  | .error (.protocol "item-not-found" _) => .ok { delivered := false, read := false }
  | .error e => .error (handleError e)

/-! Stanza dispatch (src/client.ts) and the message parsers it uses
(src/features/messaging/messages.ts). -/

/-- PresenceMessage as produced by MessageManager.parsePresence; the
constant type tag is implicit in the Lean type. -/
structure PresenceMessage where
  mfrom : Option String
  status : Option String
deriving DecidableEq, Repr

/-- MessageManager.parsePresence. -/
def parsePresence (stanza : Element) : Option PresenceMessage :=
  if stanza.name = "presence" then
    some { mfrom := stanza.attr "from", status := stanza.attr "type" }
  else
    none

/-- MessageManager.parseMessage: parse any stanza into a chat or file
message (only the dispatcher restricts it to message stanzas). -/
def parseMessage (stanza : Element) : Option XMPPMessage :=
  let body := (stanza.getChildText "body").getD ""
  let stanza_id := (stanza.getChild "stanza-id").bind (fun c => c.attr "id")
  let base : XMPPMessage :=
    { id := stanza.attr "id", stanza_id := stanza_id,
      mfrom := stanza.attr "from", mto := stanza.attr "to",
      stamp := none, mtype := "chat", body := body }
  match (stanza.getChildNS "x" HTTP_UPLOAD_NAMESPACE).bind
          (fun x => x.getChild "file") with
  | some fileElement =>
      some { base with
             mtype := "file",
             fileName := fileElement.attr "name",
             fileSize := fileElement.attr "size",
             mimeType := fileElement.attr "type",
             fileUrl := fileElement.attr "url" }
  | none => some base

/-- MessageReceipt from types/messages.ts; rtype is the name of the
receipt child (received or displayed). -/
structure MessageReceipt where
  id : Option String
  mfrom : Option String
  rtype : String
deriving DecidableEq, Repr

/-- MessageManager.parseReceipt: only receipt children in the
urn:xmpp:receipts namespace are accepted; received wins over displayed
(the JS or). -/
def parseReceipt (stanza : Element) : Option MessageReceipt :=
  let received := stanza.getChildNS "received" RECEIPT_NAMESPACE
  let displayed := stanza.getChildNS "displayed" RECEIPT_NAMESPACE
  match received <|> displayed with
  | none => none
  | some receipt =>
      some { id := receipt.attr "id", mfrom := stanza.attr "from",
             rtype := receipt.name }

/-- EjabberdClient.isMAMStanza. -/
def isMAMStanza (stanza : Element) : Bool :=
  (stanza.getChildNS "result" "urn:xmpp:mam:2").isSome ||
  (stanza.getChildNS "fin" "urn:xmpp:mam:2").isSome

/-- EjabberdClient.isMessageStanza. -/
def isMessageStanza (stanza : Element) : Bool :=
  stanza.name == "message"

/-- EjabberdClient.isRecieptStanza: a message stanza with a displayed or
received child IN ANY NAMESPACE (getChild without xmlns argument). -/
def isRecieptStanza (stanza : Element) : Bool :=
  stanza.name == "message" &&
  ((stanza.getChild "displayed").isSome || (stanza.getChild "received").isSome)

/-- Events the client emits from its inbound-stanza handler.  The
readStatus enrichment the client performs before emitting message and
mamResult events is a per-message field update through getMessageStatus
and does not alter which event is emitted nor the message list. -/
inductive ClientEvent where
  | presence (p : PresenceMessage)
  | mamResult (r : MAMResult)
  | receipt (r : MessageReceipt)
  | message (m : XMPPMessage)
  | status (s : ConnectionState)
deriving DecidableEq, Repr

/-- The inbound-stanza handler of EjabberdClient.setupEventHandlers:
presence first, then for message and iq stanzas the first-match chain
isMAMStanza, isRecieptStanza, isMessageStanza; everything else is
dropped.  The MAM branch threads the aggregator table. -/
def handleStanza (mc : MessageMap) (stanza : Element) :
    MessageMap × Option ClientEvent :=
  if stanza.name = "presence" then
    (mc, (parsePresence stanza).map ClientEvent.presence)
  else if stanza.name = "message" ∨ stanza.name = "iq" then
    if isMAMStanza stanza then
      let step := parseResult mc stanza
      (step.1, step.2.map ClientEvent.mamResult)
    else if isRecieptStanza stanza then
      (mc, (parseReceipt stanza).map ClientEvent.receipt)
    else if isMessageStanza stanza then
      (mc, (parseMessage stanza).map ClientEvent.message)
    else
      (mc, none)
  else
    (mc, none)

/-- The status handler of EjabberdClient.setupEventHandlers: it
re-emits the status event and touches nothing else; in particular the
MAM aggregator table is left untouched on every transition, including
away from online. -/
def clientOnStatus (mc : MessageMap) (st : ConnectionState) :
    MessageMap × ClientEvent :=
  (mc, .status st)

/-! Frame-shape predicates used to state the archive-aggregation
claims, and concrete sample stanzas for witnesses. -/

/-- The stanza is an archive item frame carrying queryid q whose
forwarded message parses to m. -/
def ItemFrame (q : String) (st : Element) (m : XMPPMessage) : Prop :=
  ∃ rc, st.getChildNS "result" MAM_NAMESPACE = some rc ∧
        rc.attr "queryid" = some q ∧
        parseForwardedMessage rc = some m

/-- The stanza is an archive terminal frame: no mam result child, a mam
fin child, and top-level id attribute q (the key the handler uses for
the lookup). -/
def FinFrame (q : String) (st : Element) : Prop :=
  st.getChildNS "result" MAM_NAMESPACE = none ∧
  (st.getChildNS "fin" MAM_NAMESPACE).isSome = true ∧
  st.attr "id" = some q

/-- A forwarded chat message from alice to bob with body hi. -/
def sampleForwarded : Element :=
  .elem "forwarded" [("xmlns", "urn:xmpp:forward:0")]
    [.elem "message"
       [("id", "m1"), ("from", "alice@example.com"), ("to", "bob@example.com")]
       [.elem "body" [] [.text "hi"]]]

/-- An archive item frame for query q wrapping sampleForwarded. -/
def sampleItem (q : String) : Element :=
  .elem "message" []
    [.elem "result" [("xmlns", "urn:xmpp:mam:2"), ("queryid", q)] [sampleForwarded]]

/-- An archive terminal frame whose top-level id is q. -/
def sampleFin (q : String) : Element :=
  .elem "iq" [("id", q)]
    [.elem "fin" [("xmlns", "urn:xmpp:mam:2"), ("complete", "true")] []]

/-- The parse of sampleForwarded. -/
def sampleMsg : XMPPMessage :=
  { id := some "m1", stanza_id := none, mfrom := some "alice@example.com",
    mto := some "bob@example.com", stamp := none, mtype := "chat", body := "hi" }

/-- A message stanza whose displayed child sits in a namespace other
than urn:xmpp:receipts. -/
def sampleBadReceipt : Element :=
  .elem "message" [("from", "alice@example.com")]
    [.elem "displayed" [("xmlns", "urn:other:namespace"), ("id", "m9")] []]

/-- A manager with an online session on transport handle 0. -/
def connectedState : CMState :=
  { xmpp := some 0, status := .online, connectionTimeout := false,
    reconnectAttempts := 0 }

/-! Helper lemmas about the aggregator table. -/

theorem mapGet_mapPush_self (mc : MessageMap) (q : String) (m : XMPPMessage) :
    mapGet (mapPush mc q m) q = some ((mapGet mc q).getD [] ++ [m]) := by
  induction mc with
  | nil => simp [mapPush, mapGet]
  | cons kv rest ih =>
      obtain ⟨k, v⟩ := kv
      by_cases hk : k = q
      · subst hk
        simp [mapPush, mapGet]
      · simp [mapPush, mapGet, hk, ih]

theorem mapGet_mapPush_ne (mc : MessageMap) (q q2 : String) (m : XMPPMessage)
    (h : q2 ≠ q) : mapGet (mapPush mc q m) q2 = mapGet mc q2 := by
  induction mc with
  | nil => simp [mapPush, mapGet, Ne.symm h]
  | cons kv rest ih =>
      obtain ⟨k, v⟩ := kv
      by_cases hk : k = q
      · subst hk
        simp [mapPush, mapGet, Ne.symm h]
      · by_cases hk2 : k = q2 <;> simp [mapPush, mapGet, hk, hk2, ih, h]

theorem mapGet_mapDelete_self (mc : MessageMap) (q : String) :
    mapGet (mapDelete mc q) q = none := by
  induction mc with
  | nil => simp [mapDelete, mapGet]
  | cons kv rest ih =>
      obtain ⟨k, v⟩ := kv
      by_cases hk : k = q <;> simp [mapDelete, mapGet, hk, ih]

theorem mapGet_mapDelete_ne (mc : MessageMap) (q q2 : String) (h : q2 ≠ q) :
    mapGet (mapDelete mc q) q2 = mapGet mc q2 := by
  induction mc with
  | nil => simp [mapDelete, mapGet]
  | cons kv rest ih =>
      obtain ⟨k, v⟩ := kv
      by_cases hk : k = q
      · subst hk
        simp [mapDelete, mapGet, Ne.symm h, ih]
      · by_cases hk2 : k = q2 <;> simp [mapDelete, mapGet, hk, hk2, ih, h]

/-- An item frame for a non-empty queryId appends the parsed message to
the partial for that id and emits nothing. -/
theorem parseResult_item (mc : MessageMap) (q : String) (st : Element)
    (m : XMPPMessage) (hq : q ≠ "") (h : ItemFrame q st m) :
    parseResult mc st = (mapPush mc q m, none) := by
  obtain ⟨rc, h1, h2, h3⟩ := h
  simp [parseResult, h1, h2, h3, hq]

/-- A terminal frame keyed by q deletes the entry for q and emits one
result whose messages are exactly the accumulated partial (empty when
none was started). -/
theorem parseResult_fin (mc : MessageMap) (q : String) (st : Element)
    (h : FinFrame q st) :
    (parseResult mc st).1 = mapDelete mc q ∧
    ∃ r, (parseResult mc st).2 = some r ∧
         r.queryId = some q ∧
         r.messages = (mapGet mc q).getD [] := by
  obtain ⟨h1, h2, h3⟩ := h
  obtain ⟨fin, hfin⟩ := Option.isSome_iff_exists.mp h2
  refine ⟨?_, ?_⟩
  · simp [parseResult, h1, hfin, h3]
  · cases hr : (parseResult mc st).2 with
    | none => simp [parseResult, h1, hfin, h3] at hr
    | some r =>
        refine ⟨r, rfl, ?_, ?_⟩ <;>
          · simp only [parseResult, h1, hfin, h3, Option.some.injEq] at hr
            rw [← hr]
            try simp

/-- Feeding a sequence of item frames for one queryId appends their
parses in arrival order, emits nothing, and touches no other key. -/
theorem processAll_items (q : String) (hq : q ≠ "") :
    ∀ {items : List Element} {ms : List XMPPMessage},
      List.Forall₂ (ItemFrame q) items ms → ∀ mc : MessageMap,
      (processAll mc items).2 = [] ∧
      (mapGet (processAll mc items).1 q).getD [] = (mapGet mc q).getD [] ++ ms ∧
      (∀ q2, q2 ≠ q → mapGet (processAll mc items).1 q2 = mapGet mc q2) := by
  intro items ms hf
  induction hf with
  | nil => intro mc; simp [processAll]
  | cons hitem _ ih =>
      intro mc
      rename_i st m items2 ms2 _
      have hstep := parseResult_item mc q st m hq hitem
      obtain ⟨ihe, ihget, ihother⟩ := ih (mapPush mc q m)
      refine ⟨?_, ?_, ?_⟩
      · simp [processAll, hstep, ihe]
      · simp only [processAll, hstep]
        rw [ihget, mapGet_mapPush_self]
        simp
      · intro q2 hq2
        simp only [processAll, hstep]
        rw [ihother q2 hq2, mapGet_mapPush_ne mc q q2 m hq2]

/-- Claim C1, counterexample.  The claim asserts the backoff delay is
computed before the reconnect-attempt counter is incremented, so that
the first reconnect after attempt 0 waits min(1000*2^0, 30000) = 1000 ms.
In the code handleConnectionError increments the counter before
reconnect() reads it, so the first scheduled backoff is 2000 ms. -/
theorem C1_counterexample :
    delayAtFailure 1 = some 2000 ∧
    min (1000 * 2 ^ 0) 30000 = 1000 ∧
    delayAtFailure 1 ≠ some 1000 := by
  decide

/-- Claim C1, amended.  After the n-th consecutive connect failure
(1 ≤ n ≤ 5) the scheduled backoff is min(1000 * 2^n, 30000) ms, the
counter having been incremented to n before the delay is computed (so
the first reconnect waits 2000 ms, not 1000 ms); the failure after the
counter reaches 5 schedules no automatic reconnect. -/
theorem C1_backoff_after_increment (n : Nat) (h1 : 1 ≤ n)
    (h2 : n ≤ MAX_RECONNECT_ATTEMPTS) :
    delayAtFailure n = some (min (1000 * 2 ^ n) MAX_BACKOFF_TIME) ∧
    delayAtFailure (MAX_RECONNECT_ATTEMPTS + 1) = none := by
  have h2n : n ≤ 5 := h2
  interval_cases n <;> exact ⟨by decide, by decide⟩

/-- Witness for C1_backoff_after_increment at n = 3. -/
theorem C1_backoff_after_increment_witness :
    delayAtFailure 3 = some (min (1000 * 2 ^ 3) MAX_BACKOFF_TIME) ∧
    delayAtFailure (MAX_RECONNECT_ATTEMPTS + 1) = none :=
  C1_backoff_after_increment 3 (by decide) (by decide)

/-- Claim C2.  The claim says a disconnect() completing during a pending
reconnect backoff prevents the scheduled reconnect from firing.  In the
code the cancellation guard (status not disconnected inside
shouldAttemptReconnect) runs when the failure is handled — where status
was just set to error — and reconnect() calls connect() unconditionally
once the wait elapses.  Concretely: the first connect failure schedules
a 2000 ms backoff; disconnect() then completes (status disconnected,
handle dropped); when the backoff elapses, connect() does not reject but
transitions to connecting and starts a fresh transport — the scheduled
reconnect fires after the disconnect, contradicting the claim. -/
theorem C2_reconnect_fires_after_disconnect :
    (handleConnectionError initialConnectAttempt).2 = some 2000 ∧
    (disconnect (handleConnectionError initialConnectAttempt).1).status =
      ConnectionState.disconnected ∧
    (connect (disconnect (handleConnectionError initialConnectAttempt).1) 1).2 =
      none ∧
    (connect (disconnect (handleConnectionError initialConnectAttempt).1) 1).1.status =
      ConnectionState.connecting ∧
    (connect (disconnect (handleConnectionError initialConnectAttempt).1) 1).1.xmpp =
      some 1 := by
  constructor
  · decide
  · constructor
    · decide
    · refine ⟨rfl, rfl, rfl⟩

/-- Claim C3, counterexample.  The claim asserts every pending partial
is discarded from the aggregator table when the connection transitions
away from online.  In the code no handler touches
MAMHandler.messageCollections on a status transition: after one item
frame for q1 is stored, a transition to disconnected leaves the table
unchanged, and the terminal frame arriving after the reconnect emits the
partial accumulated before the transition instead of an empty result. -/
theorem C3_counterexample :
    (handleStanza [] (sampleItem "q1")).2 = none ∧
    (clientOnStatus (handleStanza [] (sampleItem "q1")).1
        ConnectionState.disconnected).1 = (handleStanza [] (sampleItem "q1")).1 ∧
    (handleStanza
        (clientOnStatus (handleStanza [] (sampleItem "q1")).1
          ConnectionState.disconnected).1
        (sampleFin "q1")).2 =
      some (ClientEvent.mamResult
        { queryId := some "q1", complete := true, messages := [sampleMsg],
          rsm := none }) ∧
    [sampleMsg] ≠ ([] : List XMPPMessage) := by
  refine ⟨rfl, rfl, rfl, by decide⟩

/-- Claim C3, amended.  Pending partials are NOT discarded on a
transition away from online: the client handler for connection status
events leaves the aggregator table unchanged for every status value, so
a partial accumulated before the transition is exactly what the next
terminal frame for its queryId emits after a reconnect. -/
theorem C3_partials_survive_transition (mc : MessageMap) (st : ConnectionState)
    (q : String) (fin : Element) (hfin : FinFrame q fin) :
    (clientOnStatus mc st).1 = mc ∧
    ((parseResult (clientOnStatus mc st).1 fin).2).map MAMResult.messages =
      some ((mapGet mc q).getD []) := by
  refine ⟨rfl, ?_⟩
  obtain ⟨_, r, hr2, _, hrm⟩ := parseResult_fin mc q fin hfin
  rw [show (clientOnStatus mc st).1 = mc from rfl, hr2]
  simp [hrm]

/-- Witness for C3_partials_survive_transition: a table holding one
partial for q1 survives a transition to disconnected and the following
terminal emits that partial. -/
theorem C3_partials_survive_transition_witness :
    (clientOnStatus [("q1", [sampleMsg])] ConnectionState.disconnected).1 =
      [("q1", [sampleMsg])] ∧
    ((parseResult
        (clientOnStatus [("q1", [sampleMsg])] ConnectionState.disconnected).1
        (sampleFin "q1")).2).map MAMResult.messages =
      some ((mapGet [("q1", [sampleMsg])] "q1").getD []) :=
  C3_partials_survive_transition [("q1", [sampleMsg])] .disconnected "q1"
    (sampleFin "q1") ⟨rfl, rfl, rfl⟩

/-- Claim C4.  For a queryId q, k item frames for q followed by one
terminal frame keyed by q: the item frames emit nothing, the terminal
emits exactly one result carrying the k parsed messages in arrival
order, the pending partial for q is removed afterward, and a second
terminal for the already-completed id emits an empty-message result. -/
theorem C4_archive_aggregation (q : String) (hq : q ≠ "")
    (items : List Element) (ms : List XMPPMessage)
    (hitems : List.Forall₂ (ItemFrame q) items ms)
    (fin : Element) (hfin : FinFrame q fin)
    (mc : MessageMap) (hmc : mapGet mc q = none) :
    (processAll mc items).2 = [] ∧
    ((parseResult (processAll mc items).1 fin).2).map MAMResult.messages =
      some ms ∧
    mapGet (parseResult (processAll mc items).1 fin).1 q = none ∧
    ((parseResult (parseResult (processAll mc items).1 fin).1 fin).2).map
        MAMResult.messages = some [] := by
  obtain ⟨he, hget, _⟩ := processAll_items q hq hitems mc
  have hms : (mapGet (processAll mc items).1 q).getD [] = ms := by
    rw [hget, hmc]
    simp
  obtain ⟨hfst, r, hr2, _, hrm⟩ := parseResult_fin (processAll mc items).1 q fin hfin
  have hdel : mapGet (parseResult (processAll mc items).1 fin).1 q = none := by
    rw [hfst]
    exact mapGet_mapDelete_self _ q
  refine ⟨he, ?_, hdel, ?_⟩
  · rw [hr2]
    simp [hrm, hms]
  · obtain ⟨_, r2, hr2b, _, hrm2⟩ :=
      parseResult_fin (parseResult (processAll mc items).1 fin).1 q fin hfin
    rw [hr2b]
    simp [hrm2, hdel]

/-- Witness for C4_archive_aggregation: one item for q1 followed by the
terminal for q1. -/
theorem C4_archive_aggregation_witness :
    (processAll [] [sampleItem "q1"]).2 = [] ∧
    ((parseResult (processAll [] [sampleItem "q1"]).1 (sampleFin "q1")).2).map
        MAMResult.messages = some [sampleMsg] ∧
    mapGet (parseResult (processAll [] [sampleItem "q1"]).1 (sampleFin "q1")).1
        "q1" = none ∧
    ((parseResult
        (parseResult (processAll [] [sampleItem "q1"]).1 (sampleFin "q1")).1
        (sampleFin "q1")).2).map MAMResult.messages = some [] :=
  C4_archive_aggregation "q1" (by decide) [sampleItem "q1"] [sampleMsg]
    (List.Forall₂.cons ⟨_, rfl, rfl, rfl⟩ List.Forall₂.nil)
    (sampleFin "q1") ⟨rfl, rfl, rfl⟩ [] rfl

/-- Claim C9.  Item frames are keyed by the queryid attribute of the mam
result child while the terminal is looked up by the top-level id
attribute of the fin stanza: a terminal whose id qf differs from the
items queryid q emits an empty-message result and leaves the items
pending in the table. -/
theorem C9_fin_keyed_by_stanza_id (q qf : String) (hq : q ≠ "")
    (hqf : qf ≠ q)
    (items : List Element) (ms : List XMPPMessage)
    (hitems : List.Forall₂ (ItemFrame q) items ms)
    (fin : Element) (hfin : FinFrame qf fin)
    (mc : MessageMap) (hmc : mapGet mc q = none) (hmcf : mapGet mc qf = none) :
    ((parseResult (processAll mc items).1 fin).2).map MAMResult.messages =
      some [] ∧
    (mapGet (parseResult (processAll mc items).1 fin).1 q).getD [] = ms := by
  obtain ⟨_, hget, hother⟩ := processAll_items q hq hitems mc
  have hqfget : mapGet (processAll mc items).1 qf = none := by
    rw [hother qf hqf, hmcf]
  obtain ⟨hfst, r, hr2, _, hrm⟩ :=
    parseResult_fin (processAll mc items).1 qf fin hfin
  constructor
  · rw [hr2]
    simp [hrm, hqfget]
  · rw [hfst, mapGet_mapDelete_ne _ qf q (Ne.symm hqf), hget, hmc]
    simp

/-- Witness for C9_fin_keyed_by_stanza_id: one item keyed q1, terminal
keyed q2. -/
theorem C9_fin_keyed_by_stanza_id_witness :
    ((parseResult (processAll [] [sampleItem "q1"]).1 (sampleFin "q2")).2).map
        MAMResult.messages = some [] ∧
    (mapGet (parseResult (processAll [] [sampleItem "q1"]).1 (sampleFin "q2")).1
        "q1").getD [] = [sampleMsg] :=
  C9_fin_keyed_by_stanza_id "q1" "q2" (by decide) (by decide)
    [sampleItem "q1"] [sampleMsg]
    (List.Forall₂.cons ⟨_, rfl, rfl, rfl⟩ List.Forall₂.nil)
    (sampleFin "q2") ⟨rfl, rfl, rfl⟩ [] rfl rfl

/-- The generic wrap of a send failure is never the empty string. -/
theorem failed_send_wrap_ne_empty (m : String) :
    ¬("Failed to send IQ: " ++ m = "") := by
  intro h
  have h2 := congrArg String.length h
  rw [String.length_append] at h2
  simp at h2
  exact absurd h2.1 (by decide)

/-- The not-connected guard of sendIQ is false for an online state with
a transport handle. -/
theorem sendIQ_guard_false {s : CMState} (hx : ¬ s.xmpp = none)
    (hs : s.status = .online) : ¬(s.xmpp = none ∨ ¬ s.status = .online) := by
  rintro (h | h)
  · exact hx h
  · exact h hs

/-- Claim C7.  Calling connect() while the state is connecting or online
raises the already-in-progress (resp. already-connected) error and
leaves the whole state — status, transport handle, attempt counter —
unchanged: no transition occurs before the error. -/
theorem C7_connect_rejects_without_mutation (s : CMState) (handle : Nat)
    (h : s.status = .connecting ∨ s.status = .online) :
    (connect s handle).1 = s ∧
    (connect s handle).2.isSome = true ∧
    (s.status = .connecting →
      (connect s handle).2 = some { message := "Connection already in progress" }) ∧
    (s.status = .online →
      (connect s handle).2 = some { message := "Already connected" }) := by
  rcases h with h | h <;> simp [connect, h]

/-- Witness for C7_connect_rejects_without_mutation at an online state. -/
theorem C7_connect_rejects_without_mutation_witness :
    (connect connectedState 7).1 = connectedState ∧
    (connect connectedState 7).2.isSome = true ∧
    (connectedState.status = .connecting →
      (connect connectedState 7).2 =
        some { message := "Connection already in progress" }) ∧
    (connectedState.status = .online →
      (connect connectedState 7).2 = some { message := "Already connected" }) :=
  C7_connect_rejects_without_mutation connectedState 7 (Or.inr rfl)

/-- Claim C6.  sendIQ rejects immediately with the not-connected error
and sends nothing unless the state is online with a transport handle;
otherwise it attaches a correlation id to the frame exactly when the id
attribute is absent (or empty, the JS falsy test), sends it, propagates
a structured protocol error unchanged, and wraps any other send failure
with the generic message. -/
theorem C6_sendIQ_correlation (s : CMState) (iq : Element) (freshId : String)
    (outcome : IQSendOutcome) :
    ((s.xmpp = none ∨ ¬ s.status = .online) →
       (sendIQ s iq freshId outcome).sent = none ∧
       (sendIQ s iq freshId outcome).result =
         .error (.notConnected "Not connected to server")) ∧
    (¬ s.xmpp = none → s.status = .online →
       ((iq.attr "id" = none ∨ iq.attr "id" = some "") →
          (sendIQ s iq freshId outcome).sent = some (iq.setAttr "id" freshId)) ∧
       (∀ v, iq.attr "id" = some v → v ≠ "" →
          (sendIQ s iq freshId outcome).sent = some iq) ∧
       (∀ r, outcome = .ok r →
          (sendIQ s iq freshId outcome).result = .ok r) ∧
       (∀ c m, outcome = .protoError c m →
          (sendIQ s iq freshId outcome).result = .error (.protocol c m)) ∧
       (∀ m, outcome = .sendError m →
          (sendIQ s iq freshId outcome).result =
            .error (.generic ("Failed to send IQ: " ++ m)))) := by
  constructor
  · intro hguard
    constructor <;> simp [sendIQ, hguard]
  · intro hx hs
    have hng := sendIQ_guard_false hx hs
    refine ⟨?_, ?_, ?_, ?_, ?_⟩
    · rintro (hid | hid) <;> cases outcome <;> simp [sendIQ, hng, hid]
    · intro v hid hv
      cases outcome <;> simp [sendIQ, hng, hid, hv]
    · rintro r rfl
      simp [sendIQ, hng]
    · rintro c m rfl
      simp [sendIQ, hng]
    · rintro m rfl
      simp [sendIQ, hng]

/-- Witness for C6_sendIQ_correlation: online state, an iq without id,
a protocol-error outcome. -/
theorem C6_sendIQ_correlation_witness :
    (sendIQ connectedState (getStatusIQ "m1" "alice@example.com") "abc123"
        (.protoError "forbidden" "denied")).sent =
      some ((getStatusIQ "m1" "alice@example.com").setAttr "id" "abc123") ∧
    (sendIQ connectedState (getStatusIQ "m1" "alice@example.com") "abc123"
        (.protoError "forbidden" "denied")).result =
      .error (.protocol "forbidden" "denied") := by
  have h := C6_sendIQ_correlation connectedState
    (getStatusIQ "m1" "alice@example.com") "abc123"
    (.protoError "forbidden" "denied")
  exact ⟨(h.2 (by decide) rfl).1 (Or.inl rfl),
         (h.2 (by decide) rfl).2.2.2.1 "forbidden" "denied" rfl⟩

/-- Claim C5.  markAsRead sends exactly one mark-read set-IQ; the
displayed receipt — addressed to the original sender — is sent only
after the IQ succeeds; when the IQ fails no receipt is sent and the
failure propagates with the status-specific kind for the conditions
item-not-found / forbidden / bad-request, and as a generic server error
otherwise. -/
theorem C5_markAsRead_roundtrip (s : CMState) (message : MessageRef)
    (freshId : String) (outcome : IQSendOutcome)
    (hx : ¬ s.xmpp = none) (hs : s.status = .online) :
    (markAsRead s message freshId outcome).sentIQ =
      some ((markReadIQ message).setAttr "id" freshId) ∧
    (sendReadReceiptStanza message).attr "to" = some message.mfrom ∧
    (∀ r, outcome = .ok r →
       (markAsRead s message freshId outcome).sentReceipts =
         [sendReadReceiptStanza message] ∧
       (markAsRead s message freshId outcome).result = .ok ()) ∧
    (∀ m, outcome = .protoError "item-not-found" m →
       (markAsRead s message freshId outcome).sentReceipts = [] ∧
       (markAsRead s message freshId outcome).result =
         .error { name := .not_found, message := "Message status not found" }) ∧
    (∀ m, outcome = .protoError "forbidden" m →
       (markAsRead s message freshId outcome).sentReceipts = [] ∧
       (markAsRead s message freshId outcome).result =
         .error { name := .unauthorized,
                  message := "Not authorized to access message status" }) ∧
    (∀ m, outcome = .protoError "bad-request" m →
       (markAsRead s message freshId outcome).sentReceipts = [] ∧
       (markAsRead s message freshId outcome).result =
         .error (if strContains (if m = "" then "Unknown error" else m) "jid"
                 then { name := .invalid_jid, message := "Invalid JID format" }
                 else { name := .invalid_id, message := "Invalid message ID" })) ∧
    (∀ c m, outcome = .protoError c m → c ≠ "item-not-found" →
       c ≠ "forbidden" → c ≠ "bad-request" →
       (markAsRead s message freshId outcome).sentReceipts = [] ∧
       (markAsRead s message freshId outcome).result =
         .error { name := .server_error,
                  message := if m = "" then "Unknown error" else m }) ∧
    (∀ m, outcome = .sendError m →
       (markAsRead s message freshId outcome).sentReceipts = [] ∧
       (markAsRead s message freshId outcome).result =
         .error { name := .server_error,
                  message := "Failed to send IQ: " ++ m }) := by
  have hng := sendIQ_guard_false hx hs
  refine ⟨?_, rfl, ?_, ?_, ?_, ?_, ?_, ?_⟩
  · cases outcome <;> simp [markAsRead, sendIQ, hng, markReadIQ, Element.attr] <;> rfl
  · rintro r rfl
    constructor <;> simp [markAsRead, sendIQ, hng]
  · rintro m rfl
    constructor <;> simp [markAsRead, sendIQ, hng, handleError]
  · rintro m rfl
    constructor <;> simp [markAsRead, sendIQ, hng, handleError]
  · rintro m rfl
    constructor <;> simp [markAsRead, sendIQ, hng, handleError]
  · rintro c m rfl hc1 hc2 hc3
    constructor <;> simp [markAsRead, sendIQ, hng, handleError, hc1, hc2, hc3]
  · rintro m rfl
    constructor <;>
      simp [markAsRead, sendIQ, hng, handleError, failed_send_wrap_ne_empty m]

/-- Witness for C5_markAsRead_roundtrip: successful IQ round trip. -/
theorem C5_markAsRead_roundtrip_witness :
    (markAsRead connectedState
        { id := "m1", mfrom := "alice@example.com", mto := "bob@example.com" }
        "abc123" (.ok (.elem "iq" [] []))).sentReceipts =
      [sendReadReceiptStanza
        { id := "m1", mfrom := "alice@example.com", mto := "bob@example.com" }] ∧
    (markAsRead connectedState
        { id := "m1", mfrom := "alice@example.com", mto := "bob@example.com" }
        "abc123" (.ok (.elem "iq" [] []))).result = .ok () := by
  have h := C5_markAsRead_roundtrip connectedState
    { id := "m1", mfrom := "alice@example.com", mto := "bob@example.com" }
    "abc123" (.ok (.elem "iq" [] [])) (by decide) rfl
  exact h.2.2.1 _ rfl

/-- Claim C8.  A status query rejected with the protocol condition
item-not-found resolves normally to delivered=false, read=false; every
other structured protocol condition is mapped to its status error kind
and rejected. -/
theorem C8_getStatus_notFound (s : CMState) (messageId jid freshId : String)
    (hx : ¬ s.xmpp = none) (hs : s.status = .online) :
    (∀ m, getStatus s messageId jid freshId (.protoError "item-not-found" m) =
       .ok { delivered := false, read := false }) ∧
    (∀ m, getStatus s messageId jid freshId (.protoError "forbidden" m) =
       .error { name := .unauthorized,
                message := "Not authorized to access message status" }) ∧
    (∀ m, getStatus s messageId jid freshId (.protoError "bad-request" m) =
       .error (if strContains (if m = "" then "Unknown error" else m) "jid"
               then { name := .invalid_jid, message := "Invalid JID format" }
               else { name := .invalid_id, message := "Invalid message ID" })) ∧
    (∀ c m, c ≠ "item-not-found" → c ≠ "forbidden" → c ≠ "bad-request" →
       getStatus s messageId jid freshId (.protoError c m) =
       .error { name := .server_error,
                message := if m = "" then "Unknown error" else m }) := by
  have hng := sendIQ_guard_false hx hs
  refine ⟨?_, ?_, ?_, ?_⟩
  · intro m
    simp [getStatus, sendIQ, hng]
  · intro m
    simp [getStatus, sendIQ, hng, handleError]
  · intro m
    simp [getStatus, sendIQ, hng, handleError]
  · intro c m hc1 hc2 hc3
    simp [getStatus, sendIQ, hng, handleError, hc1, hc2, hc3]

/-- Witness for C8_getStatus_notFound. -/
theorem C8_getStatus_notFound_witness :
    getStatus connectedState "m1" "alice@example.com" "abc123"
        (.protoError "item-not-found" "no status recorded") =
      .ok { delivered := false, read := false } ∧
    getStatus connectedState "m1" "alice@example.com" "abc123"
        (.protoError "forbidden" "denied") =
      .error { name := .unauthorized,
               message := "Not authorized to access message status" } := by
  have h := C8_getStatus_notFound connectedState "m1" "alice@example.com"
    "abc123" (by decide) rfl
  exact ⟨h.1 "no status recorded", h.2.1 "denied"⟩

/-- Claim C10.  The dispatcher classifies a message stanza as a receipt
whenever it has a displayed or received child in any namespace, but the
receipt parser requires the urn:xmpp:receipts namespace; a message
stanza whose displayed and received children all live in other
namespaces therefore produces no event at all — it is neither surfaced
as a receipt nor does it fall through to chat-message parsing — and the
aggregator table is untouched. -/
theorem C10_misnamespaced_receipt_dropped (mc : MessageMap) (stanza : Element)
    (hname : stanza.name = "message")
    (hmam : isMAMStanza stanza = false)
    (hchild : ((stanza.getChild "displayed").isSome ||
               (stanza.getChild "received").isSome) = true)
    (hns1 : stanza.getChildNS "displayed" RECEIPT_NAMESPACE = none)
    (hns2 : stanza.getChildNS "received" RECEIPT_NAMESPACE = none) :
    handleStanza mc stanza = (mc, none) := by
  have hrecpt : isRecieptStanza stanza = true := by
    simp [isRecieptStanza, hname, hchild]
  have hpr : parseReceipt stanza = none := by
    simp [parseReceipt, hns1, hns2]
  simp [handleStanza, hname, hmam, hrecpt, hpr]

/-- Witness for C10_misnamespaced_receipt_dropped on the sample stanza
whose displayed child is in urn:other:namespace. -/
theorem C10_misnamespaced_receipt_dropped_witness :
    handleStanza [] sampleBadReceipt = ([], none) :=
  C10_misnamespaced_receipt_dropped [] sampleBadReceipt rfl rfl rfl rfl rfl

end NextEjabberd
